import Mathlib

/-!
Shallow embedding of `flask_restframework/views.py` (class `APIView`):
the per-request authentication / permission / throttle gate and its
centralized exception handling.

Modelling conventions:
* A Python instance attribute that may not have been assigned yet is an
  `Option` field of `ReqState`; `none` means "attribute not set", so reading
  it raises `PyExc.attributeError` as in Python.
* Strategy instances (authenticators, permissions, throttles) are records of
  the values their methods return for the request under consideration.
* Each step additionally returns the list of indices of the strategy objects
  whose decision method was actually invoked, in invocation order, so that
  "never consulted" properties are expressible.
* The `exceptions` module is not part of the source tree; its data model is
  modelled from the spec (see `ExcKind`, `APIException`, `exception_handler`).
-/

namespace FlaskRF

/-- Modelled from the spec: the error taxonomy of the missing `exceptions`
module — `AuthenticationFailed`, `NotAuthenticated`, `PermissionDenied`,
`Throttled`, plus arbitrary further API exceptions. -/
inductive ExcKind where
  | authenticationFailed
  | notAuthenticated
  | permissionDenied
  | throttled
  | custom (tag : String)
deriving DecidableEq

/-- Modelled from the spec: an API exception value; the core only attaches
`auth_header` / `detail` / `code` / `duration` metadata before raising. -/
structure APIException where
  kind : ExcKind
  detail : Option String := none
  code : Option String := none
  auth_header : Option String := none
  duration : Option Int := none
deriving DecidableEq

/-- A raised Python exception: either an API exception or the
`AttributeError` produced by reading an instance attribute never assigned. -/
inductive PyExc where
  | api (e : APIException)
  | attributeError (attr : String)
deriving DecidableEq

instance {ε α : Type} [DecidableEq ε] [DecidableEq α] :
    DecidableEq (Except ε α) := fun x y =>
  match x, y with
  | Except.error e, Except.error f =>
    if h : e = f then isTrue (by rw [h])
    else isFalse (fun hc => h (by injection hc))
  | Except.error _, Except.ok _ => isFalse (fun hc => by cases hc)
  | Except.ok _, Except.error _ => isFalse (fun hc => by cases hc)
  | Except.ok a, Except.ok b =>
    if h : a = b then isTrue (by rw [h])
    else isFalse (fun hc => h (by injection hc))

/-- An authenticator instance: `authenticate()` either raises an
`APIException`, or returns `none` (absent credentials), or returns a
`(user, credentials)` pair; `authenticate_header()` returns a string. -/
structure Authenticator where
  authenticate : Except APIException (Option (Int × Int))
  authenticate_header : String
deriving DecidableEq

/-- A permission instance: `has_permission()` plus optional `message` and
`code` attributes read with `getattr(…, default=None)`. -/
structure Permission where
  has_permission : Bool
  message : Option String := none
  code : Option String := none
deriving DecidableEq

/-- A throttle instance: `allow_request()` and `wait()`. -/
structure Throttle where
  allow_request : Bool
  wait : Int
deriving DecidableEq

/-- One entry of `throttle_handlers`: a `{"class": …, "rate": …}` pair;
`cls` is the throttle class, instantiated with the configured rate. -/
structure ThrottleHandler where
  cls : Int → Throttle
  rate : Int

/-- The view-level class attributes of `APIView` (default: all empty). -/
structure ViewConfig where
  authentication_classes : List Authenticator := []
  permission_classes : List Permission := []
  throttle_handlers : List ThrottleHandler := []

/-- A host-framework response value: either the output of the built-in
exception handler, or the output of a custom configured handler, or the
wrapped view body's own response. -/
inductive Response where
  | handled (e : PyExc)
  | custom (n : Nat) (e : PyExc)
  | body
deriving DecidableEq

/-- Process-wide configuration read off `current_app` with `getattr`:
missing `EXCEPTION_HANDLER` is `none` (fall back to the built-in one). -/
structure AppConfig where
  AUTHENTICATION_CLASSES : List Authenticator := []
  PERMISSION_CLASSES : List Permission := []
  THROTTLE_HANDLERS : List ThrottleHandler := []
  EXCEPTION_HANDLER : Option (PyExc → Response) := none

/-- Per-request transient state: the instance attributes
`successful_authenticated`, `authenticators`, `authenticator` (the active
authenticator) and the ambient `g.current_user`. The outer `Option` is
`none` while the attribute has never been assigned. -/
structure ReqState where
  successful_authenticated : Option Bool := none
  authenticators : Option (List Authenticator) := none
  authenticator : Option Authenticator := none
  g_current_user : Option (Option Int) := none
deriving DecidableEq

/-- The state of a freshly constructed view instance: no attribute set. -/
def ReqState.fresh : ReqState := {}

/-- Python `a or b` on lists: the left list if non-empty (truthy), else the
right one. -/
def pyOr {α : Type} (a b : List α) : List α :=
  if a.isEmpty then b else a

/-- Source `get_authenticators` (instantiation of authenticator classes is
the identity in this model): `self.authentication_classes or
current_app.AUTHENTICATION_CLASSES`. The caller also stores the result in
`self.authenticators`; that assignment is performed in
`perform_authentication` below. -/
def get_authenticators (view : ViewConfig) (app : AppConfig) : List Authenticator :=
  pyOr view.authentication_classes app.AUTHENTICATION_CLASSES

/-- Source `get_permissions`: `self.permission_classes or
current_app.PERMISSION_CLASSES`, each entry instantiated. -/
def get_permissions (view : ViewConfig) (app : AppConfig) : List Permission :=
  pyOr view.permission_classes app.PERMISSION_CLASSES

/-- Source `get_throttles`: `self.throttle_handlers or
current_app.THROTTLE_HANDLERS`, each `{"class": c, "rate": r}` entry
instantiated as `c(r)`. -/
def get_throttles (view : ViewConfig) (app : AppConfig) : List Throttle :=
  (pyOr view.throttle_handlers app.THROTTLE_HANDLERS).map (fun t => t.cls t.rate)

/-- The `for authenticator in …` loop body of `perform_authentication`,
with `i` the index of the first list element. Returns the updated state,
the outcome, and the indices of authenticators whose `authenticate()` was
called. On an `APIException` the authenticator's header is attached and the
exception propagates; on a non-`none` tuple the request is marked
authenticated and the active authenticator recorded; if the list is
exhausted, `g.current_user` is set to `None`. -/
def authLoop (s : ReqState) (i : Nat) :
    List Authenticator → ReqState × Except APIException Unit × List Nat
  | [] => ({ s with g_current_user := some none }, Except.ok (), [])
  | a :: rest =>
    match a.authenticate with
    | Except.error exc =>
      (s, Except.error { exc with auth_header := some a.authenticate_header }, [i])
    | Except.ok (some _) =>
      ({ s with successful_authenticated := some true, authenticator := some a },
        Except.ok (), [i])
    | Except.ok none =>
      let r := authLoop s (i + 1) rest
      (r.1, r.2.1, i :: r.2.2)

/-- Source `perform_authentication`: set `self.successful_authenticated =
False`, resolve and store `self.authenticators`, then run the loop. -/
def perform_authentication (view : ViewConfig) (app : AppConfig) (s : ReqState) :
    ReqState × Except APIException Unit × List Nat :=
  let auths := get_authenticators view app
  authLoop { s with successful_authenticated := some false,
                    authenticators := some auths } 0 auths

/-- Source `get_authenticate_header`: first stored authenticator's
`authenticate_header()`, implicit `None` when the stored list is empty,
`AttributeError` when `self.authenticators` was never assigned. -/
def get_authenticate_header (s : ReqState) : Except PyExc (Option String) :=
  match s.authenticators with
  | none => Except.error (PyExc.attributeError "authenticators")
  | some [] => Except.ok none
  | some (a :: _) => Except.ok (some a.authenticate_header)

/-- Source `permission_denied`: raise `NotAuthenticated` (carrying the
header from `get_authenticate_header`) when `self.authenticators` is
non-empty and `self.successful_authenticated` is false; otherwise raise
`PermissionDenied(detail=message, code=code)`. Reading an unassigned
attribute raises `AttributeError`; the `and` short-circuits as in Python. -/
def permission_denied (s : ReqState) (message code : Option String) :
    Except PyExc Unit :=
  match s.authenticators with
  | none => Except.error (PyExc.attributeError "authenticators")
  | some auths =>
    if auths.isEmpty then
      Except.error (PyExc.api
        { kind := ExcKind.permissionDenied, detail := message, code := code })
    else
      match s.successful_authenticated with
      | none => Except.error (PyExc.attributeError "successful_authenticated")
      | some true =>
        Except.error (PyExc.api
          { kind := ExcKind.permissionDenied, detail := message, code := code })
      | some false =>
        match get_authenticate_header s with
        | Except.error e => Except.error e
        | Except.ok h =>
          Except.error (PyExc.api
            { kind := ExcKind.notAuthenticated, auth_header := h })

/-- The `for permission in …` loop of `check_permissions`: on the first
`has_permission()` returning false, call `permission_denied` with the
permission's `message` and `code`; an exception it raises propagates. Also
returns the indices of permissions whose `has_permission()` was called. -/
def permLoop (s : ReqState) (i : Nat) :
    List Permission → Except PyExc Unit × List Nat
  | [] => (Except.ok (), [])
  | p :: rest =>
    if p.has_permission then
      let r := permLoop s (i + 1) rest
      (r.1, i :: r.2)
    else
      match permission_denied s p.message p.code with
      | Except.error e => (Except.error e, [i])
      | Except.ok _ =>
        let r := permLoop s (i + 1) rest
        (r.1, i :: r.2)

/-- Source `check_permissions`: run the loop over the freshly resolved
permission list. -/
def check_permissions (view : ViewConfig) (app : AppConfig) (s : ReqState) :
    Except PyExc Unit × List Nat :=
  permLoop s 0 (get_permissions view app)

/-- The `for throttle in …` loop of `check_throttles`: returns the
collected `wait()` durations of denying throttles in order, the indices of
throttles whose `allow_request()` was called, and the indices whose
`wait()` was called. -/
def throttleLoop (i : Nat) : List Throttle → List Int × List Nat × List Nat
  | [] => ([], [], [])
  | t :: rest =>
    let r := throttleLoop (i + 1) rest
    if t.allow_request then
      (r.1, i :: r.2.1, r.2.2)
    else
      (t.wait :: r.1, i :: r.2.1, i :: r.2.2)

/-- Python `max(l, default=d)`: `d` on the empty list, else the maximum. -/
def pyMax (l : List Int) (d : Option Int) : Option Int :=
  match l with
  | [] => d
  | x :: xs => some (xs.foldl max x)

/-- Source `check_throttles`: evaluate every throttle, collect `wait()` of
the denying ones, and if any duration was collected raise
`Throttled(max(throttle_durations, default=None))`. -/
def check_throttles (view : ViewConfig) (app : AppConfig) :
    Except APIException Unit × List Nat × List Nat :=
  let r := throttleLoop 0 (get_throttles view app)
  if r.1.isEmpty then
    (Except.ok (), r.2)
  else
    (Except.error { kind := ExcKind.throttled, duration := pyMax r.1 none }, r.2)

/-- Source `initial`: `perform_authentication()` then `check_permissions()`
then `check_throttles()`, each exception propagating immediately. -/
def initial (view : ViewConfig) (app : AppConfig) (s : ReqState) :
    ReqState × Except PyExc Unit :=
  let pa := perform_authentication view app s
  match pa.2.1 with
  | Except.error e => (pa.1, Except.error (PyExc.api e))
  | Except.ok _ =>
    match (check_permissions view app pa.1).1 with
    | Except.error e => (pa.1, Except.error e)
    | Except.ok _ =>
      match (check_throttles view app).1 with
      | Except.error e => (pa.1, Except.error (PyExc.api e))
      | Except.ok _ => (pa.1, Except.ok ())

/-- Modelled from the spec: the built-in `exceptions.exception_handler`, an
opaque total mapping from a raised error to a response. -/
def exception_handler (e : PyExc) : Response :=
  Response.handled e

/-- Source `handle_exception`: `getattr(current_app, "EXCEPTION_HANDLER",
exceptions.exception_handler)` applied to the exception. -/
def handle_exception (app : AppConfig) (e : PyExc) : Response :=
  match app.EXCEPTION_HANDLER with
  | none => exception_handler e
  | some h => h e

/-- Source `dispatch_request`: run `initial()` inside `try`; on any
exception return `handle_exception(exc)`, otherwise run the wrapped handler
body. The boolean records whether the body was invoked. -/
def dispatch_request (view : ViewConfig) (app : AppConfig) (s : ReqState)
    (bodyResponse : Response) : Response × Bool :=
  match (initial view app s).2 with
  | Except.error exc => (handle_exception app exc, false)
  | Except.ok _ => (bodyResponse, true)

/-! ### Helper lemmas about the authentication loop -/

/-- The loop never touches the stored `self.authenticators` attribute. -/
theorem authLoop_authenticators (s : ReqState) (i : Nat) (l : List Authenticator) :
    (authLoop s i l).1.authenticators = s.authenticators := by
  induction l generalizing s i with
  | nil => rfl
  | cons a rest ih =>
    simp only [authLoop]
    cases ha : a.authenticate with
    | error e => rfl
    | ok t =>
      cases t with
      | none => exact ih s (i + 1)
      | some u => rfl

/-- The loop either leaves `self.successful_authenticated` alone or sets it
to `True`. -/
theorem authLoop_success_dichotomy (s : ReqState) (i : Nat) (l : List Authenticator) :
    (authLoop s i l).1.successful_authenticated = s.successful_authenticated ∨
    (authLoop s i l).1.successful_authenticated = some true := by
  induction l generalizing s i with
  | nil => exact Or.inl rfl
  | cons a rest ih =>
    simp only [authLoop]
    cases ha : a.authenticate with
    | error e => exact Or.inl rfl
    | ok t =>
      cases t with
      | none => exact ih s (i + 1)
      | some u => exact Or.inr rfl

/-- When every authenticator returns `None`, the loop consults all of them
in order, raises nothing, and sets `g.current_user` to `None`. -/
theorem authLoop_all_absent (s : ReqState) (i : Nat) (l : List Authenticator)
    (h : ∀ a ∈ l, a.authenticate = Except.ok none) :
    authLoop s i l =
      ({ s with g_current_user := some none }, Except.ok (), List.range' i l.length) := by
  induction l generalizing s i with
  | nil => rfl
  | cons a rest ih =>
    have ha : a.authenticate = Except.ok none := h a (List.mem_cons_self a rest)
    have hrest : ∀ x ∈ rest, x.authenticate = Except.ok none :=
      fun x hx => h x (List.mem_cons_of_mem a hx)
    simp only [authLoop, ha, ih s (i + 1) hrest, List.length_cons, List.range'_succ]

/-- If the loop ends with an active authenticator, it is the first one in
the list whose `authenticate()` returned a non-`None` tuple, every earlier
one returned `None`, and exactly the authenticators up to and including it
were consulted. -/
theorem authLoop_active_first (s : ReqState) (i : Nat) (l : List Authenticator)
    (h0 : s.authenticator = none) (a : Authenticator)
    (h : (authLoop s i l).1.authenticator = some a) :
    ∃ pre u rest, l = pre ++ a :: rest ∧
      (∀ x ∈ pre, x.authenticate = Except.ok none) ∧
      a.authenticate = Except.ok (some u) ∧
      (authLoop s i l).2.2 = List.range' i (pre.length + 1) := by
  induction l generalizing s i with
  | nil =>
    exfalso
    simp only [authLoop] at h
    rw [h0] at h
    cases h
  | cons b rest ih =>
    cases hb : b.authenticate with
    | error e =>
      exfalso
      simp only [authLoop, hb] at h
      rw [h0] at h
      cases h
    | ok t =>
      cases t with
      | some u =>
        have hba : b = a := by
          simp only [authLoop, hb] at h
          exact Option.some.inj h
        subst hba
        exact ⟨[], u, rest, rfl, (by intro x hx; cases hx), hb,
          (by simp [authLoop, hb, List.range'_one])⟩
      | none =>
        have h' : (authLoop s (i + 1) rest).1.authenticator = some a := by
          simpa only [authLoop, hb] using h
        obtain ⟨pre, u, rest2, hdec, hpre, hau, htr⟩ := ih s (i + 1) h0 h'
        refine ⟨b :: pre, u, rest2, (by rw [hdec]; simp), ?_, hau, ?_⟩
        · intro x hx
          cases hx with
          | head => exact hb
          | tail _ hx => exact hpre x hx
        · simp only [authLoop, hb, htr, List.length_cons, List.range'_succ]

/-- If the loop starts unauthenticated with no active authenticator, it
ends either authenticated with an active authenticator that returned a
non-`None` tuple, or unauthenticated with no active authenticator. -/
theorem authLoop_state_dichotomy (s : ReqState) (i : Nat) (l : List Authenticator)
    (hsa : s.successful_authenticated = some false) (h0 : s.authenticator = none) :
    ((authLoop s i l).1.successful_authenticated = some true ∧
      ∃ a u, (authLoop s i l).1.authenticator = some a ∧
        a.authenticate = Except.ok (some u)) ∨
    ((authLoop s i l).1.successful_authenticated = some false ∧
      (authLoop s i l).1.authenticator = none) := by
  induction l generalizing s i with
  | nil => exact Or.inr ⟨hsa, h0⟩
  | cons a rest ih =>
    simp only [authLoop]
    cases ha : a.authenticate with
    | error e => exact Or.inr ⟨hsa, h0⟩
    | ok t =>
      cases t with
      | none => exact ih s (i + 1) hsa h0
      | some u => exact Or.inl ⟨rfl, a, u, rfl, ha⟩

/-! ### Helper lemmas about permission checking -/

/-- Source `permission_denied` never returns normally: every branch raises
(`NotAuthenticated`, `PermissionDenied`, or an `AttributeError`). -/
theorem permission_denied_raises (s : ReqState) (m c : Option String) :
    ∃ e, permission_denied s m c = Except.error e := by
  unfold permission_denied
  repeat' split
  all_goals exact ⟨_, rfl⟩

/-- If the permission loop returns without raising, every permission in the
list passed. -/
theorem permLoop_ok (s : ReqState) (i : Nat) (l : List Permission)
    (h : (permLoop s i l).1 = Except.ok ()) :
    ∀ p ∈ l, p.has_permission = true := by
  induction l generalizing i with
  | nil => intro p hp; cases hp
  | cons p rest ih =>
    intro q hq
    by_cases hp : p.has_permission
    · cases hq with
      | head => exact hp
      | tail _ hq =>
        refine ih (i + 1) ?_ q hq
        simpa only [permLoop, if_pos hp] using h
    · exfalso
      obtain ⟨e, he⟩ := permission_denied_raises s p.message p.code
      simp only [permLoop, if_neg hp, he] at h
      cases h

/-- The permission loop stops at the first denying permission: it calls
`permission_denied` there with that permission's message and code, the
raised error propagates, and only the permissions up to and including the
denier are evaluated. -/
theorem permLoop_first_denier (s : ReqState) (i : Nat) (pre : List Permission)
    (p : Permission) (rest : List Permission)
    (hpre : ∀ x ∈ pre, x.has_permission = true) (hp : p.has_permission = false) :
    ∃ e, permission_denied s p.message p.code = Except.error e ∧
      permLoop s i (pre ++ p :: rest) =
        (Except.error e, List.range' i (pre.length + 1)) := by
  induction pre generalizing i with
  | nil =>
    obtain ⟨e, he⟩ := permission_denied_raises s p.message p.code
    refine ⟨e, he, ?_⟩
    simp [permLoop, hp, he, List.range'_one]
  | cons q pre ih =>
    have hq : q.has_permission = true := hpre q (List.mem_cons_self _ _)
    obtain ⟨e, he, hr⟩ := ih (i + 1) (fun x hx => hpre x (List.mem_cons_of_mem _ hx))
    refine ⟨e, he, ?_⟩
    simp only [List.cons_append, permLoop, hq, if_true, List.append_eq, hr,
      List.length_cons, List.range'_succ]

/-! ### Helper lemmas about throttling -/

/-- Closed form of the throttle loop: the collected durations are the
`wait()` values of the denying throttles in order, `allow_request()` is
called on every throttle, and `wait()` exactly on the denying ones. -/
theorem throttleLoop_spec (i : Nat) (l : List Throttle) :
    throttleLoop i l =
      ((l.filter fun t => !t.allow_request).map Throttle.wait,
        List.range' i l.length,
        ((l.enumFrom i).filter fun q => !q.2.allow_request).map Prod.fst) := by
  induction l generalizing i with
  | nil => rfl
  | cons t rest ih =>
    simp only [throttleLoop, ih (i + 1)]
    cases ht : t.allow_request <;>
      simp [List.filter_cons, ht, List.range'_succ, List.enumFrom]

/-- The seed of `List.foldl max` is a lower bound of the result, and so is
every list element. -/
theorem foldl_max_bound (x : Int) (l : List Int) :
    x ≤ l.foldl max x ∧ ∀ d ∈ l, d ≤ l.foldl max x := by
  induction l generalizing x with
  | nil => exact ⟨le_refl x, fun d hd => absurd hd (List.not_mem_nil d)⟩
  | cons y l ih =>
    obtain ⟨h1, h2⟩ := ih (max x y)
    simp only [List.foldl_cons]
    refine ⟨le_trans (le_max_left x y) h1, ?_⟩
    intro d hd
    cases hd with
    | head => exact le_trans (le_max_right x y) h1
    | tail _ hd => exact h2 d hd

/-- The result of `List.foldl max` is the seed or one of the elements. -/
theorem foldl_max_mem (x : Int) (l : List Int) : l.foldl max x ∈ x :: l := by
  induction l generalizing x with
  | nil => simp
  | cons y l ih =>
    simp only [List.foldl_cons]
    rcases List.mem_cons.mp (ih (max x y)) with h1 | h1
    · rw [h1]
      rcases max_choice x y with hm | hm <;> rw [hm] <;> simp
    · simp [h1]

/-! ### Concrete fixtures used by witnesses and counterexamples -/

/-- A view with no view-level overrides (all class attributes empty). -/
def view0 : ViewConfig := {}

/-- An app with no process-wide configuration attributes. -/
def app0 : AppConfig := {}

/-- A permission instance that always denies, with no message or code. -/
def denyPerm : Permission := { has_permission := false }

/-- A permission instance that always allows. -/
def allowPerm : Permission := { has_permission := true }

/-- An authenticator whose `authenticate()` returns a `(user, credentials)`
tuple. -/
def authOk : Authenticator :=
  { authenticate := Except.ok (some (1, 0)), authenticate_header := "Bearer" }

/-- An authenticator whose `authenticate()` returns `None`. -/
def authAbsent : Authenticator :=
  { authenticate := Except.ok none, authenticate_header := "Basic" }

/-- A view configured with one absent-credentials authenticator followed by
one succeeding authenticator. -/
def viewTwoAuth : ViewConfig := { authentication_classes := [authAbsent, authOk] }

/-- A view configured with a single absent-credentials authenticator. -/
def viewAbsentAuth : ViewConfig := { authentication_classes := [authAbsent] }

/-! ### Claim theorems -/

/-- C1: for every sequence of configured authenticators,
`perform_authentication` marks at most one authenticator as active (the
request state has a single active-authenticator slot), and whenever that
slot is filled with `a`, then `a` is the first authenticator in order whose
`authenticate()` returned non-none — every earlier one returned none — and
no later authenticator was consulted: the consulted indices are exactly
`0 … pre.length`, the successful authenticator's position. -/
theorem C1_first_success_wins (view : ViewConfig) (app : AppConfig) (s : ReqState)
    (h0 : s.authenticator = none) (a : Authenticator)
    (h : (perform_authentication view app s).1.authenticator = some a) :
    ∃ pre u rest, get_authenticators view app = pre ++ a :: rest ∧
      (∀ x ∈ pre, x.authenticate = Except.ok none) ∧
      a.authenticate = Except.ok (some u) ∧
      (perform_authentication view app s).2.2 = List.range (pre.length + 1) := by
  obtain ⟨pre, u, rest, hdec, hpre, hau, htr⟩ :=
    authLoop_active_first
      { s with successful_authenticated := some false,
               authenticators := some (get_authenticators view app) } 0
      (get_authenticators view app) h0 a h
  refine ⟨pre, u, rest, hdec, hpre, hau, ?_⟩
  rw [List.range_eq_range']
  exact htr

/-- Witness for C1 at a concrete input: with one absent-credentials
authenticator followed by a succeeding one, the active authenticator is the
succeeding one and the decomposition of the theorem holds. -/
theorem C1_witness :
    ∃ pre u rest, get_authenticators viewTwoAuth app0 = pre ++ authOk :: rest ∧
      (∀ x ∈ pre, x.authenticate = Except.ok none) ∧
      authOk.authenticate = Except.ok (some u) ∧
      (perform_authentication viewTwoAuth app0 ReqState.fresh).2.2 =
        List.range (pre.length + 1) :=
  C1_first_success_wins viewTwoAuth app0 ReqState.fresh rfl authOk rfl

/-- C7: after `perform_authentication` has run from a fresh request state,
at most one authenticator is marked active, the active slot is filled only
when some authenticator succeeded (returned a non-none tuple and the
request is marked authenticated), and it is empty whenever authentication
did not succeed. -/
theorem C7_active_only_on_success (view : ViewConfig) (app : AppConfig)
    (s : ReqState) (h0 : s.authenticator = none) :
    ((perform_authentication view app s).1.successful_authenticated = some true ∧
      ∃ a u, (perform_authentication view app s).1.authenticator = some a ∧
        a.authenticate = Except.ok (some u)) ∨
    ((perform_authentication view app s).1.successful_authenticated = some false ∧
      (perform_authentication view app s).1.authenticator = none) :=
  authLoop_state_dichotomy
    { s with successful_authenticated := some false,
             authenticators := some (get_authenticators view app) } 0
    (get_authenticators view app) rfl h0

/-- Witness for C7 at a concrete input with no configured authenticators. -/
theorem C7_witness :
    ((perform_authentication view0 app0 ReqState.fresh).1.successful_authenticated
        = some true ∧
      ∃ a u, (perform_authentication view0 app0 ReqState.fresh).1.authenticator
          = some a ∧ a.authenticate = Except.ok (some u)) ∨
    ((perform_authentication view0 app0 ReqState.fresh).1.successful_authenticated
        = some false ∧
      (perform_authentication view0 app0 ReqState.fresh).1.authenticator = none) :=
  C7_active_only_on_success view0 app0 ReqState.fresh rfl

/-- C9: when every resolved authenticator returns none — in particular when
the resolved authenticator list is empty — `perform_authentication` raises
no error, leaves the request marked unauthenticated, and sets the ambient
`g.current_user` to none. -/
theorem C9_exhaustion_unauthenticated (view : ViewConfig) (app : AppConfig)
    (s : ReqState)
    (h : ∀ a ∈ get_authenticators view app, a.authenticate = Except.ok none) :
    (perform_authentication view app s).2.1 = Except.ok () ∧
    (perform_authentication view app s).1.successful_authenticated = some false ∧
    (perform_authentication view app s).1.g_current_user = some none := by
  have hres : perform_authentication view app s =
      ({ s with successful_authenticated := some false,
                authenticators := some (get_authenticators view app),
                g_current_user := some none }, Except.ok (),
        List.range' 0 (get_authenticators view app).length) :=
    authLoop_all_absent
      { s with successful_authenticated := some false,
               authenticators := some (get_authenticators view app) } 0
      (get_authenticators view app) h
  rw [hres]
  exact ⟨rfl, rfl, rfl⟩

/-- Witness for C9 at a concrete input: a single authenticator that returns
none; the request ends unauthenticated with no error and a cleared ambient
user. -/
theorem C9_witness :
    (perform_authentication viewAbsentAuth app0 ReqState.fresh).2.1 = Except.ok () ∧
    (perform_authentication viewAbsentAuth app0 ReqState.fresh).1.successful_authenticated
      = some false ∧
    (perform_authentication viewAbsentAuth app0 ReqState.fresh).1.g_current_user
      = some none :=
  C9_exhaustion_unauthenticated viewAbsentAuth app0 ReqState.fresh (by decide)

/-- An app whose process-wide permission default is one allowing permission
followed by one denying permission. -/
def appTwoPerm : AppConfig := { PERMISSION_CLASSES := [allowPerm, denyPerm] }

/-- C2: `check_permissions` evaluates the resolved permissions in order and
invokes `permission_denied` — whose raised error propagates — at the first
one whose `has_permission()` is false, evaluating no permission after it
(the evaluated indices are exactly `0 … pre.length`); and if it returns
without raising, every resolved permission returned true. -/
theorem C2_permissions_fail_fast (view : ViewConfig) (app : AppConfig)
    (s : ReqState) :
    (∀ pre p rest, get_permissions view app = pre ++ p :: rest →
      (∀ x ∈ pre, x.has_permission = true) → p.has_permission = false →
      ∃ e, permission_denied s p.message p.code = Except.error e ∧
        check_permissions view app s =
          (Except.error e, List.range (pre.length + 1))) ∧
    ((check_permissions view app s).1 = Except.ok () →
      ∀ p ∈ get_permissions view app, p.has_permission = true) := by
  constructor
  · intro pre p rest hdec hpre hp
    obtain ⟨e, he, hr⟩ := permLoop_first_denier s 0 pre p rest hpre hp
    refine ⟨e, he, ?_⟩
    unfold check_permissions
    rw [hdec, hr, List.range_eq_range']
  · intro h
    exact permLoop_ok s 0 _ h

/-- Witness for C2 at a concrete input: with resolved permissions
`[allow, deny]`, the denial error of the second permission is raised and
exactly the first two permissions are evaluated. -/
theorem C2_witness :
    ∃ e, permission_denied ReqState.fresh denyPerm.message denyPerm.code =
        Except.error e ∧
      check_permissions view0 appTwoPerm ReqState.fresh =
        (Except.error e, List.range 2) :=
  (C2_permissions_fail_fast view0 appTwoPerm ReqState.fresh).1
    [allowPerm] denyPerm [] rfl (by decide) rfl

/-- A throttle handler entry whose instance always denies and waits for its
configured rate of 5. -/
def slowHandler : ThrottleHandler :=
  { cls := fun r => { allow_request := false, wait := r }, rate := 5 }

/-- A throttle handler entry whose instance always denies and waits for its
configured rate of 2. -/
def quickHandler : ThrottleHandler :=
  { cls := fun r => { allow_request := false, wait := r }, rate := 2 }

/-- An app whose process-wide throttle default is two denying throttles
with waits 5 and 2. -/
def appThrottled : AppConfig := { THROTTLE_HANDLERS := [slowHandler, quickHandler] }

/-- Closed form of the `throttle_durations` list that `check_throttles`
collects: the `wait()` values of the denying resolved throttles, in order. -/
def throttle_durations (view : ViewConfig) (app : AppConfig) : List Int :=
  ((get_throttles view app).filter fun t => !t.allow_request).map Throttle.wait

/-- The `Throttled` API exception raised by `check_throttles`. -/
def throttledExc (d : Option Int) : APIException :=
  { kind := ExcKind.throttled, duration := d }

/-- C3: `check_throttles` calls `allow_request()` on every resolved
throttle in order with no short-circuit, calls `wait()` exactly on the
denying ones, raises nothing when no throttle denies, and when at least one
denies raises a `Throttled` error whose duration is `some` of the maximum
collected `wait()` value — the `default=None` branch of `max` is never the
value raised. -/
theorem C3_throttles_all_evaluated (view : ViewConfig) (app : AppConfig) :
    (check_throttles view app).2.1 =
      List.range (get_throttles view app).length ∧
    (check_throttles view app).2.2 =
      (((get_throttles view app).enum.filter fun q => !q.2.allow_request).map
        Prod.fst) ∧
    (throttle_durations view app = [] →
      (check_throttles view app).1 = Except.ok ()) ∧
    (∀ d ds, throttle_durations view app = d :: ds →
      ∃ m, pyMax (d :: ds) none = some m ∧ m ∈ d :: ds ∧ (∀ x ∈ d :: ds, x ≤ m) ∧
        (check_throttles view app).1 = Except.error (throttledExc (some m))) := by
  have hct : check_throttles view app =
      (if (throttle_durations view app).isEmpty then Except.ok ()
       else Except.error (throttledExc (pyMax (throttle_durations view app) none)),
       List.range' 0 (get_throttles view app).length,
       (((get_throttles view app).enumFrom 0).filter
         fun q => !q.2.allow_request).map Prod.fst) := by
    unfold check_throttles throttle_durations throttledExc
    rw [throttleLoop_spec]
    dsimp only
    split <;> rename_i h <;> simp [h]
  refine ⟨?_, ?_, ?_, ?_⟩
  · rw [hct, List.range_eq_range']
  · rw [hct]
    rfl
  · intro hnil
    rw [hct, hnil]
    rfl
  · intro d ds hcons
    refine ⟨(d :: ds).foldl max d, ?_, ?_, ?_, ?_⟩
    · simp [pyMax]
    · simpa using foldl_max_mem d ds
    · intro x hx
      simp only [List.foldl_cons, max_self]
      cases hx with
      | head => exact (foldl_max_bound d ds).1
      | tail _ hx => exact (foldl_max_bound d ds).2 x hx
    · rw [hct, hcons]
      simp [pyMax]

/-- Witness for C3 at a concrete input: two denying throttles with waits 5
and 2 cause a `Throttled` error carrying the maximum duration. -/
theorem C3_witness :
    ∃ m, pyMax (5 :: [2]) none = some m ∧ m ∈ (5 : Int) :: [2] ∧
      (∀ x ∈ (5 : Int) :: [2], x ≤ m) ∧
      (check_throttles view0 appThrottled).1 =
        Except.error (throttledExc (some m)) :=
  (C3_throttles_all_evaluated view0 appThrottled).2.2.2 5 [2] rfl

/-- Modelled from the spec: the `NotAuthenticated()` exception value, after
the caller has attached `auth_header`. -/
def notAuthenticatedExc (h : Option String) : APIException :=
  { kind := ExcKind.notAuthenticated, auth_header := h }

/-- Modelled from the spec: the `PermissionDenied(detail, code)` exception
value. -/
def permissionDeniedExc (m c : Option String) : APIException :=
  { kind := ExcKind.permissionDenied, detail := m, code := c }

/-- After `perform_authentication`, the stored `self.authenticators` is the
list resolved by `get_authenticators` against the app configuration passed
for this request. -/
theorem perform_authentication_authenticators (view : ViewConfig)
    (app : AppConfig) (s : ReqState) :
    (perform_authentication view app s).1.authenticators =
      some (get_authenticators view app) :=
  authLoop_authenticators
    { s with successful_authenticated := some false,
             authenticators := some (get_authenticators view app) } 0
    (get_authenticators view app)

/-- After `perform_authentication`, `self.successful_authenticated` is
assigned and is either false or true. -/
theorem perform_authentication_success_total (view : ViewConfig)
    (app : AppConfig) (s : ReqState) :
    (perform_authentication view app s).1.successful_authenticated = some false ∨
    (perform_authentication view app s).1.successful_authenticated = some true :=
  authLoop_success_dichotomy
    { s with successful_authenticated := some false,
             authenticators := some (get_authenticators view app) } 0
    (get_authenticators view app)

/-- Case analysis of `permission_denied` for a state whose stored
authenticator list is assigned: empty list or successful authentication
yields `PermissionDenied(message, code)`; a non-empty list with failed
authentication yields `NotAuthenticated` carrying the first stored
authenticator's header. -/
theorem permission_denied_cases (s : ReqState) (auths : List Authenticator)
    (m c : Option String) (hs : s.authenticators = some auths) :
    (auths = [] → permission_denied s m c =
      Except.error (PyExc.api (permissionDeniedExc m c))) ∧
    (s.successful_authenticated = some true → permission_denied s m c =
      Except.error (PyExc.api (permissionDeniedExc m c))) ∧
    (∀ a rest, auths = a :: rest → s.successful_authenticated = some false →
      permission_denied s m c =
        Except.error (PyExc.api (notAuthenticatedExc (some a.authenticate_header)))) := by
  refine ⟨?_, ?_, ?_⟩
  · intro hnil
    subst hnil
    unfold permission_denied
    rw [hs]
    rfl
  · intro htrue
    unfold permission_denied
    rw [hs]
    cases auths with
    | nil => rfl
    | cons a rest => simp [htrue, permissionDeniedExc]
  · intro a rest hcons hfalse
    subst hcons
    unfold permission_denied
    rw [hs]
    simp [hfalse, get_authenticate_header, hs, notAuthenticatedExc]

/-- C4: when permission denial is triggered after the authentication step
(which completed without raising), the authenticated flag is assigned
either false or true; if at least one authenticator was resolved for the
request and authentication did not succeed, the raised error is
`NotAuthenticated` carrying the first resolved authenticator's
`authenticate_header()`; in every other case — no authenticators resolved,
or authentication succeeded — the raised error is `PermissionDenied`
carrying the failing permission's message and code. -/
theorem C4_denial_escalation (view : ViewConfig) (app : AppConfig)
    (s : ReqState) (m c : Option String)
    (_hok : (perform_authentication view app s).2.1 = Except.ok ()) :
    ((perform_authentication view app s).1.successful_authenticated = some false ∨
      (perform_authentication view app s).1.successful_authenticated = some true) ∧
    (∀ a rest, get_authenticators view app = a :: rest →
      (perform_authentication view app s).1.successful_authenticated = some false →
      permission_denied (perform_authentication view app s).1 m c =
        Except.error (PyExc.api (notAuthenticatedExc (some a.authenticate_header)))) ∧
    ((get_authenticators view app = [] ∨
        (perform_authentication view app s).1.successful_authenticated = some true) →
      permission_denied (perform_authentication view app s).1 m c =
        Except.error (PyExc.api (permissionDeniedExc m c))) := by
  have hpd := permission_denied_cases (perform_authentication view app s).1
    (get_authenticators view app) m c
    (perform_authentication_authenticators view app s)
  refine ⟨perform_authentication_success_total view app s, ?_, ?_⟩
  · intro a rest hdec hsa
    exact hpd.2.2 a rest hdec hsa
  · intro hcase
    rcases hcase with hnil | htrue
    · exact hpd.1 hnil
    · exact hpd.2.1 htrue

/-- Witness for C4 at a concrete input: one absent-credentials
authenticator is configured and a permission denies; the escalation rule
applies with authentication having completed without raising. -/
theorem C4_witness :
    (((perform_authentication viewAbsentAuth app0 ReqState.fresh).1.successful_authenticated
        = some false ∨
      (perform_authentication viewAbsentAuth app0 ReqState.fresh).1.successful_authenticated
        = some true) ∧
    (∀ a rest, get_authenticators viewAbsentAuth app0 = a :: rest →
      (perform_authentication viewAbsentAuth app0 ReqState.fresh).1.successful_authenticated
        = some false →
      permission_denied (perform_authentication viewAbsentAuth app0 ReqState.fresh).1
          none none =
        Except.error (PyExc.api (notAuthenticatedExc (some a.authenticate_header)))) ∧
    ((get_authenticators viewAbsentAuth app0 = [] ∨
        (perform_authentication viewAbsentAuth app0 ReqState.fresh).1.successful_authenticated
          = some true) →
      permission_denied (perform_authentication viewAbsentAuth app0 ReqState.fresh).1
          none none =
        Except.error (PyExc.api (permissionDeniedExc none none)))) :=
  C4_denial_escalation viewAbsentAuth app0 ReqState.fresh none none rfl

/-- C6: for each policy family, the list used for a request is the
view-level list when it is non-empty and the process-wide default when the
view-level list is empty — never a merge — and the resolution is performed
against the app configuration passed for the current request (the resolved
authenticator list recorded on the request state comes from that app
value), so a changed process-wide default is observed by the next request. -/
theorem C6_resolution_override_or_default (view : ViewConfig) (app : AppConfig)
    (s : ReqState) :
    (view.authentication_classes = [] →
      get_authenticators view app = app.AUTHENTICATION_CLASSES) ∧
    (view.authentication_classes ≠ [] →
      get_authenticators view app = view.authentication_classes) ∧
    (view.permission_classes = [] →
      get_permissions view app = app.PERMISSION_CLASSES) ∧
    (view.permission_classes ≠ [] →
      get_permissions view app = view.permission_classes) ∧
    (view.throttle_handlers = [] →
      get_throttles view app = app.THROTTLE_HANDLERS.map fun t => t.cls t.rate) ∧
    (view.throttle_handlers ≠ [] →
      get_throttles view app = view.throttle_handlers.map fun t => t.cls t.rate) ∧
    (perform_authentication view app s).1.authenticators =
      some (get_authenticators view app) := by
  refine ⟨?_, ?_, ?_, ?_, ?_, ?_, perform_authentication_authenticators view app s⟩
  · intro h
    simp [get_authenticators, pyOr, h]
  · intro h
    cases hl : view.authentication_classes with
    | nil => exact absurd hl h
    | cons a l => simp [get_authenticators, pyOr, hl]
  · intro h
    simp [get_permissions, pyOr, h]
  · intro h
    cases hl : view.permission_classes with
    | nil => exact absurd hl h
    | cons a l => simp [get_permissions, pyOr, hl]
  · intro h
    simp [get_throttles, pyOr, h]
  · intro h
    cases hl : view.throttle_handlers with
    | nil => exact absurd hl h
    | cons a l => simp [get_throttles, pyOr, hl]

/-- Witness for C6 at a concrete input: a view overriding the
authenticator list while permissions and throttles fall back to the
process-wide defaults. -/
theorem C6_witness :
    ((viewAbsentAuth.authentication_classes = [] →
      get_authenticators viewAbsentAuth appTwoPerm = appTwoPerm.AUTHENTICATION_CLASSES) ∧
    (viewAbsentAuth.authentication_classes ≠ [] →
      get_authenticators viewAbsentAuth appTwoPerm = viewAbsentAuth.authentication_classes) ∧
    (viewAbsentAuth.permission_classes = [] →
      get_permissions viewAbsentAuth appTwoPerm = appTwoPerm.PERMISSION_CLASSES) ∧
    (viewAbsentAuth.permission_classes ≠ [] →
      get_permissions viewAbsentAuth appTwoPerm = viewAbsentAuth.permission_classes) ∧
    (viewAbsentAuth.throttle_handlers = [] →
      get_throttles viewAbsentAuth appTwoPerm =
        appTwoPerm.THROTTLE_HANDLERS.map fun t => t.cls t.rate) ∧
    (viewAbsentAuth.throttle_handlers ≠ [] →
      get_throttles viewAbsentAuth appTwoPerm =
        viewAbsentAuth.throttle_handlers.map fun t => t.cls t.rate) ∧
    (perform_authentication viewAbsentAuth appTwoPerm ReqState.fresh).1.authenticators =
      some (get_authenticators viewAbsentAuth appTwoPerm)) :=
  C6_resolution_override_or_default viewAbsentAuth appTwoPerm ReqState.fresh

/-- C8: every error raised inside `initial()` is caught at the dispatch
boundary and handed to the configured process-wide exception handler — the
built-in one when none is configured — whose result is returned as the
response, and the wrapped handler body is never invoked; when `initial()`
raises nothing, the body's response is returned. -/
theorem C8_centralized_exception_handling (view : ViewConfig) (app : AppConfig)
    (s : ReqState) (r : Response) :
    (∀ e, (initial view app s).2 = Except.error e →
      dispatch_request view app s r = (handle_exception app e, false) ∧
      (app.EXCEPTION_HANDLER = none → handle_exception app e = exception_handler e) ∧
      (∀ f, app.EXCEPTION_HANDLER = some f → handle_exception app e = f e)) ∧
    ((initial view app s).2 = Except.ok () →
      dispatch_request view app s r = (r, true)) := by
  constructor
  · intro e he
    refine ⟨?_, ?_, ?_⟩
    · unfold dispatch_request
      rw [he]
    · intro hn
      unfold handle_exception
      rw [hn]
    · intro f hf
      unfold handle_exception
      rw [hf]
  · intro he
    unfold dispatch_request
    rw [he]

/-- Witness for C8 at a concrete input: an absent-credentials authenticator
plus a denying permission make `initial()` raise `NotAuthenticated`; the
dispatch boundary returns the handler's result and never invokes the body. -/
theorem C8_witness :
    dispatch_request viewAbsentAuth appTwoPerm ReqState.fresh Response.body =
      (handle_exception appTwoPerm
        (PyExc.api (notAuthenticatedExc (some "Basic"))), false) ∧
    (appTwoPerm.EXCEPTION_HANDLER = none →
      handle_exception appTwoPerm (PyExc.api (notAuthenticatedExc (some "Basic"))) =
        exception_handler (PyExc.api (notAuthenticatedExc (some "Basic")))) ∧
    (∀ f, appTwoPerm.EXCEPTION_HANDLER = some f →
      handle_exception appTwoPerm (PyExc.api (notAuthenticatedExc (some "Basic"))) =
        f (PyExc.api (notAuthenticatedExc (some "Basic")))) :=
  (C8_centralized_exception_handling viewAbsentAuth appTwoPerm ReqState.fresh
    Response.body).1 (PyExc.api (notAuthenticatedExc (some "Basic"))) rfl

/-- If the state's `self.authenticators` attribute was never assigned and
some permission in the list denies, the permission loop raises the
`AttributeError` from `permission_denied` reading `self.authenticators`. -/
theorem permLoop_attr_error (s : ReqState) (hns : s.authenticators = none)
    (i : Nat) (l : List Permission) (hd : ∃ p ∈ l, p.has_permission = false) :
    (permLoop s i l).1 = Except.error (PyExc.attributeError "authenticators") := by
  induction l generalizing i with
  | nil =>
    obtain ⟨p, hp, _⟩ := hd
    cases hp
  | cons p rest ih =>
    cases hp : p.has_permission with
    | true =>
      have hd' : ∃ q ∈ rest, q.has_permission = false := by
        obtain ⟨q, hq, hqf⟩ := hd
        cases hq with
        | head =>
          rw [hp] at hqf
          cases hqf
        | tail _ hq => exact ⟨q, hq, hqf⟩
      simp only [permLoop, hp, if_true]
      exact ih i.succ hd'
    | false =>
      have hpd : permission_denied s p.message p.code =
          Except.error (PyExc.attributeError "authenticators") := by
        unfold permission_denied
        rw [hns]
      simp only [permLoop, hp, Bool.false_eq_true, if_false, hpd]

/-- C10: the permission-denial path reads state that only
`perform_authentication` creates: in any request state where the stored
authenticator list was never assigned, running `check_permissions` with
some denying permission among the resolved ones fails with an
attribute-lookup error on `authenticators` — not with `NotAuthenticated`
or `PermissionDenied` — so running the authentication step first is a hard
precondition for the specified denial behavior. -/
theorem C10_denial_requires_auth_step (view : ViewConfig) (app : AppConfig)
    (s : ReqState) (hns : s.authenticators = none)
    (hd : ∃ p ∈ get_permissions view app, p.has_permission = false) :
    (check_permissions view app s).1 =
      Except.error (PyExc.attributeError "authenticators") :=
  permLoop_attr_error s hns 0 (get_permissions view app) hd

/-- Witness for C10 at a concrete input: a fresh request state (no
attribute assigned yet) and a denying permission among the resolved ones. -/
theorem C10_witness :
    (check_permissions view0 appTwoPerm ReqState.fresh).1 =
      Except.error (PyExc.attributeError "authenticators") :=
  C10_denial_requires_auth_step view0 appTwoPerm ReqState.fresh rfl
    ⟨denyPerm, by decide, rfl⟩

/-- An app whose process-wide permission default is a single denying
permission. -/
def appDenyDefault : AppConfig := { PERMISSION_CLASSES := [denyPerm] }

/-- Counterexample to C5 as stated: a view whose permission override is the
empty list, with a process-wide default containing a denying permission.
The request does not proceed to the handler (the body is never invoked) and
a `PermissionDenied` error is raised — the empty override does not win. -/
theorem C5_counterexample :
    (dispatch_request view0 appDenyDefault ReqState.fresh Response.body).2 = false ∧
    (initial view0 appDenyDefault ReqState.fresh).2 =
      Except.error (PyExc.api (permissionDeniedExc none none)) :=
  ⟨rfl, rfl⟩

/-- C5 as amended: if a view sets its permission list override to the empty
list while the process-wide default contains a denying permission, the
empty override is treated as unset — the process-wide default applies, a
denial error is raised inside `initial()`, and the request does not proceed
to the handler; the view-level override wins only when non-empty. -/
theorem C5_empty_override_falls_back (view : ViewConfig) (app : AppConfig)
    (s : ReqState) (r : Response) (hempty : view.permission_classes = [])
    (hdeny : ∃ p ∈ app.PERMISSION_CLASSES, p.has_permission = false) :
    get_permissions view app = app.PERMISSION_CLASSES ∧
    ∃ e, (initial view app s).2 = Except.error e ∧
      dispatch_request view app s r = (handle_exception app e, false) := by
  have hgp : get_permissions view app = app.PERMISSION_CLASSES := by
    simp [get_permissions, pyOr, hempty]
  refine ⟨hgp, ?_⟩
  have herr : ∃ e, (initial view app s).2 = Except.error e := by
    unfold initial
    cases hpa : (perform_authentication view app s).2.1 with
    | error e0 => exact ⟨PyExc.api e0, by simp [hpa]⟩
    | ok u =>
      cases hcp : (check_permissions view app (perform_authentication view app s).1).1 with
      | error e1 => exact ⟨e1, by simp [hpa, hcp]⟩
      | ok v =>
        exfalso
        have hall := permLoop_ok (perform_authentication view app s).1 0
          (get_permissions view app) hcp
        obtain ⟨p, hp, hpf⟩ := hdeny
        rw [← hgp] at hp
        rw [hall p hp] at hpf
        cases hpf
  obtain ⟨e, he⟩ := herr
  refine ⟨e, he, ?_⟩
  unfold dispatch_request
  rw [he]

/-- Witness for the amended C5 at a concrete input: empty view-level
permission override and a denying process-wide default permission. -/
theorem C5_witness :
    get_permissions view0 appDenyDefault = appDenyDefault.PERMISSION_CLASSES ∧
    ∃ e, (initial view0 appDenyDefault ReqState.fresh).2 = Except.error e ∧
      dispatch_request view0 appDenyDefault ReqState.fresh Response.body =
        (handle_exception appDenyDefault e, false) :=
  C5_empty_override_falls_back view0 appDenyDefault ReqState.fresh Response.body
    rfl ⟨denyPerm, by decide, rfl⟩

end FlaskRF
